import Mathlib

/-!
Verification development for the exa-websets-mcp tool server.

The subject of the claims is the deep-research poller registered in
`registerResearchTool` (source file `src/tools/research.ts`, here
`src/unnamed/part_003`): the submit step, the 3-second / 120-second poll
loop over the provider's task-status endpoint, the rendering of completed
results, the companion `check_research_status_exa` handler, and the
`shouldRegisterTool` configuration filter of the server entry points.

The embedding is shallow: JavaScript values that the code inspects for
truthiness are modelled by `JSVal`; provider HTTP responses become plain
records; the asynchronous poll loop becomes a fuel-indexed recursion in
which time advances only by the explicit sleeps (the code's
`Date.now()` clock, idealised so each iteration costs exactly the sleep);
the MCP tool result becomes `ToolResult`, whose text is either a literal
template string or the JSON.stringify of a key/value document.
-/

namespace ExaResearch

mutual
/-- A JavaScript value, restricted to the shapes the modelled code builds or
inspects: `undefined`, booleans, strings, and JSON objects.  JSON.stringify
drops object properties whose value is `undefined`; `stringifyDrop` below
models that at the level the theorems inspect. -/
inductive JSVal where
  | undefined : JSVal
  | bool (b : Bool) : JSVal
  | str (s : String) : JSVal
  | obj (fields : JSObj) : JSVal
  deriving DecidableEq
/-- The field list of a JavaScript object value. -/
inductive JSObj where
  | nil : JSObj
  | cons (key : String) (val : JSVal) (rest : JSObj) : JSObj
  deriving DecidableEq
end

/-- JavaScript truthiness on the modelled values: `undefined` and `false`
and the empty string are falsy; any object is truthy. -/
def jsTruthy : JSVal → Bool
  | .undefined => false
  | .bool b => b
  | .str s => !(s == "")
  | .obj _ => true

/-- Truthiness of an optional string field, as in `if (x.report)`:
absent or empty means falsy. -/
def truthyStr : Option String → Bool
  | some s => !(s == "")
  | none => false

/-- Truthiness of an optional JS value field, as in `if (x.data)`. -/
def truthyVal : Option JSVal → Bool
  | some v => jsTruthy v
  | none => false

/-- JavaScript `x || d` on an optional string, as in
`statusResponse.data.error || "Research task failed"`: the default is used
when the field is absent or the empty string. -/
def jsOrDefault (o : Option String) (d : String) : String :=
  match o with
  | some s => if s = "" then d else s
  | none => d

/-- Lift an optional string field into a JS value (`undefined` when absent),
as when the code copies `statusResponse.data.requestId` into an object. -/
def optStr : Option String → JSVal
  | some s => .str s
  | none => .undefined

/-- The top level of `JSON.stringify(obj, null, 2)`: properties whose value
is `undefined` are omitted from the emitted document. -/
def stringifyDrop (kvs : List (String × JSVal)) : List (String × JSVal) :=
  kvs.filter (fun p => !(p.2 == JSVal.undefined))

/-- The textual content of a tool result: either a literal template string
or the JSON.stringify of a key/value document. -/
inductive ToolText where
  | plain (s : String) : ToolText
  | json (doc : List (String × JSVal)) : ToolText
  deriving DecidableEq

/-- An MCP tool result: one text content block plus the host protocol's
`isError` flag (absent in the source means `false`). -/
structure ToolResult where
  content : ToolText
  isError : Bool := false
  deriving DecidableEq

/-- The result payload of a research task (`ExaResearchResponse.result`):
an optional narrative `report` and optional structured `data`. -/
structure ResearchResult where
  report : Option String := none
  data : Option JSVal := none
  deriving DecidableEq

/-- A provider response from the task-status endpoint
(`GET /research/v0/tasks/:taskId`): the fields of `ExaResearchResponse`
that the handlers read. -/
structure ExaResearchResponse where
  status : String
  result : Option ResearchResult := none
  error : Option String := none
  requestId : Option String := none
  deriving DecidableEq

/-- The caller arguments of `deep_research_exa` that affect the modelled
behavior: the query and the two schema-related options.  (`report`,
`numResults`, domain/date filters and `category` only shape the submitted
request body, which these claims never inspect.) -/
structure ResearchArgs where
  query : String
  outputSchema : Option JSVal := none
  llmGenerateSchema : Option Bool := none
  deriving DecidableEq

/-- The body of the provider's response to the submission POST, reduced to
the field the code checks (`taskResponse.data.taskId`). -/
structure SubmitResponseBody where
  taskId : Option String := none
  deriving DecidableEq

/-- The submit step's task-id check:
`if (!taskResponse.data || !taskResponse.data.taskId) throw ...`.
A missing body, a missing `taskId`, or an empty-string `taskId` (falsy in
JavaScript) all raise the submission error; otherwise the task id is
returned. -/
def submitCheck (body : Option SubmitResponseBody) : Except String String :=
  match body with
  | none => .error "Failed to start research task - no task ID received"
  | some b =>
    match b.taskId with
    | none => .error "Failed to start research task - no task ID received"
    | some t =>
      if t = "" then .error "Failed to start research task - no task ID received"
      else .ok t

/-- Polling cadence constant: `const pollingInterval = 3000; // 3 seconds`. -/
def pollingInterval : Nat := 3000

/-- Polling deadline constant: `const maxPollingTime = 120000; // 2 minutes max`. -/
def maxPollingTime : Nat := 120000

/-- The `schemaUsed` flag computed in the structured-data branch:
`formattedResults.schemaUsed = !!args.outputSchema || args.llmGenerateSchema`.
JavaScript `||` returns the second operand unchanged when the first is
falsy, so with `outputSchema` absent the flag is the raw
`llmGenerateSchema` value — `undefined` when that argument was not
supplied. -/
def schemaUsedVal (args : ResearchArgs) : JSVal :=
  if args.outputSchema.isSome then .bool true
  else
    match args.llmGenerateSchema with
    | some b => .bool b
    | none => .undefined

/-- The `formattedResults` object built in the structured-data branch of
the poll loop, in the order the code assigns its properties. -/
def formattedDoc (args : ResearchArgs) (taskId : String) (resp : ExaResearchResponse)
    (d : JSVal) : List (String × JSVal) :=
  [("requestId", optStr resp.requestId),
   ("taskId", .str taskId),
   ("researchTopic", .str args.query),
   ("status", .str "completed"),
   ("structuredData", d),
   ("schemaUsed", schemaUsedVal args)]

/-- The title-plus-report prefix of the report rendering:
`# Research Report: ${args.query}\n\n${...report}`. -/
def reportTitle (query : String) : String :=
  "# Research Report: " ++ query ++ "\n\n"

/-- The trailing part of the report rendering, after the report content:
`\n\n---\n*Research ID: ${taskId}*`. -/
def reportFooter (taskId : String) : String :=
  "\n\n---\n*Research ID: " ++ taskId ++ "*"

/-- The full report-format text returned by the poll loop's completed
branch. -/
def renderReport (query taskId report : String) : String :=
  reportTitle query ++ report ++ reportFooter taskId

/-- What one poll iteration does with a status response: return a tool
result, throw an error message, or fall through and keep polling. -/
inductive IterResult where
  | ok (r : ToolResult) : IterResult
  | thrown (msg : String) : IterResult
  | continuePolling : IterResult
  deriving DecidableEq

/-- One iteration of the `deep_research_exa` poll loop's status handling
(`if (statusResponse.data.status === 'completed') ... else if (... ===
'failed') ...`), transliterated branch for branch:

* `completed` with no `result`: throw "Research completed but no results
  returned";
* `completed` with a truthy `result.report`: return the rendered report;
* `completed` with a truthy `result.data`: return the stringified
  `formattedResults` document;
* `completed` otherwise: throw "Research completed but results are in
  unexpected format";
* `failed`: throw the provider error (or the generic message when the
  error field is absent or empty);
* any other status: keep polling. -/
def pollIter (args : ResearchArgs) (taskId : String) (resp : ExaResearchResponse) :
    IterResult :=
  if resp.status = "completed" then
    match resp.result with
    | none => .thrown "Research completed but no results returned"
    | some res =>
      if truthyStr res.report then
        .ok { content := .plain (renderReport args.query taskId (res.report.getD "")) }
      else if truthyVal res.data then
        .ok { content := .json (formattedDoc args taskId resp (res.data.getD .undefined)) }
      else
        .thrown "Research completed but results are in unexpected format"
  else if resp.status = "failed" then
    .thrown (jsOrDefault resp.error "Research task failed")
  else
    .continuePolling

/-- An observable event of the poll loop: a cooperative sleep of `ms`
milliseconds, or a status read of the `i`-th provider response. -/
inductive PollEvent where
  | sleep (ms : Nat) : PollEvent
  | read (i : Nat) : PollEvent
  deriving DecidableEq

/-- How the poll loop ends: a returned tool result, a thrown error message,
or fall-through past the deadline. -/
inductive LoopResult where
  | ok (r : ToolResult) : LoopResult
  | thrown (msg : String) : LoopResult
  | timeout : LoopResult
  deriving DecidableEq

/-- The poll loop
`while (Date.now() - startTime < maxPollingTime) { await sleep(pollingInterval); ... }`
over an abstract provider (the status response returned by the `i`-th
read).  Time advances by exactly the sleeps; the loop guard is checked
before each sleep, matching the source.  The `fuel` argument only bounds
the recursion; `runPollLoop` supplies more fuel than the deadline allows
iterations, so the fuel-exhausted branch (which returns the same
fall-through as the deadline) is never reached. -/
def pollLoopAux (provider : Nat → ExaResearchResponse) (args : ResearchArgs)
    (taskId : String) : Nat → Nat → Nat → List PollEvent × LoopResult
  | 0, _, _ => ([], .timeout)
  | fuel + 1, i, elapsed =>
    if elapsed < maxPollingTime then
      let elapsed' := elapsed + pollingInterval
      match pollIter args taskId (provider i) with
      | .ok r => ([.sleep pollingInterval, .read i], .ok r)
      | .thrown m => ([.sleep pollingInterval, .read i], .thrown m)
      | .continuePolling =>
        let rest := pollLoopAux provider args taskId fuel (i + 1) elapsed'
        (.sleep pollingInterval :: .read i :: rest.1, rest.2)
    else
      ([], .timeout)

/-- The poll loop started as in the source: first read at index 0, zero
elapsed time, and enough fuel for every iteration the deadline allows. -/
def runPollLoop (provider : Nat → ExaResearchResponse) (args : ResearchArgs)
    (taskId : String) : List PollEvent × LoopResult :=
  pollLoopAux provider args taskId (maxPollingTime / pollingInterval + 1) 0 0

/-- The timed-out return of `deep_research_exa`, a non-error text block
carrying the task id. -/
def timeoutText (taskId : String) : String :=
  "Research task is still processing. Task ID: " ++ taskId ++
    "\n\nThe research is taking longer than expected. You can check the status later using the task ID."

/-- The whole `deep_research_exa` handler on one invocation, given the
submission response body and the sequence of status responses: a failed
submit check or a thrown poll-loop error lands in the handler's catch
block, which (for these non-HTTP errors, where `axios.isAxiosError` is
false) renders `Research error: ${message}` with `isError: true`; a
completed poll returns its tool result; passing the deadline returns the
still-processing text without the error flag. -/
def deepResearchRun (args : ResearchArgs) (body : Option SubmitResponseBody)
    (provider : Nat → ExaResearchResponse) : ToolResult :=
  match submitCheck body with
  | .error msg => { content := .plain ("Research error: " ++ msg), isError := true }
  | .ok taskId =>
    match (runPollLoop provider args taskId).2 with
    | .ok r => r
    | .thrown msg => { content := .plain ("Research error: " ++ msg), isError := true }
    | .timeout => { content := .plain (timeoutText taskId) }

/-- The `check_research_status_exa` handler on one status response,
transliterated: `completed` with a truthy `result` renders the report or
the `{taskId, status, data}` document; every other case (including
`failed`, `completed` without a result, and `completed` whose result has
neither report nor data) falls through to the generic
`{taskId, status, error}` document.  No branch sets `isError`. -/
def checkStatusRun (taskId : String) (resp : ExaResearchResponse) : ToolResult :=
  let fallthrough : ToolResult :=
    { content := .json [("taskId", .str taskId), ("status", .str resp.status),
                        ("error", optStr resp.error)] }
  if resp.status = "completed" then
    match resp.result with
    | some res =>
      if truthyStr res.report then
        { content := .plain ("# Research Report (Task: " ++ taskId ++ ")\n\n" ++
            res.report.getD "") }
      else if truthyVal res.data then
        { content := .json [("taskId", .str taskId), ("status", .str "completed"),
            ("data", res.data.getD .undefined)] }
      else fallthrough
    | none => fallthrough
  else fallthrough

/-- The spec's outcome alphabet for decoding one status response:
completed-with-report, completed-with-data, failed (with the message as
the path carries it), or still pending. -/
inductive Outcome4 where
  | completedReport (r : String) : Outcome4
  | completedData (d : JSVal) : Outcome4
  | failed (msg : Option String) : Outcome4
  | pending : Outcome4
  deriving DecidableEq

/-- How the poll loop's per-iteration check classifies one status
response, read off `pollIter`: a thrown message is a failure outcome
carrying that message, and a non-terminal status continues (pending). -/
def pollerOutcome (resp : ExaResearchResponse) : Outcome4 :=
  if resp.status = "completed" then
    match resp.result with
    | none => .failed (some "Research completed but no results returned")
    | some res =>
      if truthyStr res.report then .completedReport (res.report.getD "")
      else if truthyVal res.data then .completedData (res.data.getD .undefined)
      else .failed (some "Research completed but results are in unexpected format")
  else if resp.status = "failed" then
    .failed (some (jsOrDefault resp.error "Research task failed"))
  else
    .pending

/-- How `check_research_status_exa` classifies the same response, read off
`checkStatusRun`: the two completed-with-payload branches map to the
completed outcomes; the generic `{taskId, status, error}` fall-through
carries the raw provider error (no default) when the status is `failed`,
and is the still-pending rendering for every other status it receives —
including `completed` without a usable payload, which the handler reports
with the same generic shape. -/
def checkerOutcome (resp : ExaResearchResponse) : Outcome4 :=
  if resp.status = "completed" then
    match resp.result with
    | some res =>
      if truthyStr res.report then .completedReport (res.report.getD "")
      else if truthyVal res.data then .completedData (res.data.getD .undefined)
      else .pending
    | none => .pending
  else if resp.status = "failed" then
    .failed resp.error
  else
    .pending

/-- An iteration's terminal classification lifted to the loop's result
type (a continuing iteration never terminates the loop by itself, so that
case maps to the fall-through result). -/
def iterToLoop : IterResult → LoopResult
  | .ok r => .ok r
  | .thrown m => .thrown m
  | .continuePolling => .timeout

/-- A completed response whose payload the poll loop cannot interpret: no
`result` at all, or a `result` with neither a truthy `report` nor truthy
`data`. -/
def missingPayload (resp : ExaResearchResponse) : Bool :=
  match resp.result with
  | none => true
  | some res => !truthyStr res.report && !truthyVal res.data

/-- The message the poll loop throws for a completed response without a
usable payload: one message for a missing `result`, another for a
`result` in an unexpected format. -/
def malformedMsg (resp : ExaResearchResponse) : String :=
  match resp.result with
  | none => "Research completed but no results returned"
  | some _ => "Research completed but results are in unexpected format"

/-- Number of status reads in a poll-loop trace. -/
def countReads : List PollEvent → Nat
  | [] => 0
  | .read _ :: rest => countReads rest + 1
  | .sleep _ :: rest => countReads rest

/-- The cadence predicate of the poll loop: the trace is a sequence of
(sleep `pollingInterval`, read) pairs — every status read is immediately
preceded by a sleep of the constant interval, including the first, and
nothing else occurs. -/
def cadence : List PollEvent → Bool
  | [] => true
  | .sleep ms :: .read _ :: rest => (ms == pollingInterval) && cadence rest
  | _ => false

/-- Whether `needle` occurs at the start of `hay` (character lists). -/
def startsWithChars : List Char → List Char → Bool
  | _, [] => true
  | [], _ :: _ => false
  | a :: hay, b :: needle => (a == b) && startsWithChars hay needle

/-- Whether `needle` occurs anywhere in `hay` (character lists). -/
def hasSubChars : List Char → List Char → Bool
  | [], needle => needle.isEmpty
  | a :: hay, needle => startsWithChars (a :: hay) needle || hasSubChars hay needle

/-- Decidable substring containment on strings. -/
def strContains (hay needle : String) : Bool :=
  hasSubChars hay.data needle.data

/-- The tool-selection helper of the server entry points
(`shouldRegisterTool` in `src/index.ts` and its variants): when the
configured `enabledTools` list exists and is non-empty, membership in it
decides; otherwise the tool's `enabled` flag in the default registry
decides (`availableTools[toolId]?.enabled ?? false`). -/
def shouldRegisterTool (enabledTools : Option (List String))
    (registry : List (String × Bool)) (toolId : String) : Bool :=
  match enabledTools with
  | some l => if l.length > 0 then l.contains toolId else (registry.lookup toolId).getD false
  | none => (registry.lookup toolId).getD false

/-- The default tool registry `availableTools` (from the websets server
entry point, `src/unnamed/part_002`): every tool id paired with its
`enabled` flag.  The `name`/`description` presentation strings are elided;
every entry in the source has `enabled: true`. -/
def availableTools : List (String × Bool) :=
  [("web_search_exa", true), ("get_contents_exa", true), ("find_similar_exa", true),
   ("answer_with_citations_exa", true), ("deep_research_exa", true),
   ("check_research_status_exa", true), ("research_paper_search_exa", true),
   ("company_research_exa", true), ("crawling_exa", true),
   ("competitor_finder_exa", true), ("linkedin_search_exa", true),
   ("wikipedia_search_exa", true), ("github_search_exa", true),
   ("create_webset_exa", true), ("list_websets_exa", true), ("get_webset_exa", true),
   ("update_webset_exa", true), ("delete_webset_exa", true), ("cancel_webset_exa", true),
   ("create_webset_search_exa", true), ("get_webset_search_exa", true),
   ("list_webset_searches_exa", true), ("cancel_webset_search_exa", true),
   ("create_webset_enrichment_exa", true), ("get_webset_enrichment_exa", true),
   ("list_webset_enrichments_exa", true), ("delete_webset_enrichment_exa", true),
   ("cancel_webset_enrichment_exa", true), ("list_webset_items_exa", true),
   ("get_webset_item_exa", true), ("delete_webset_item_exa", true),
   ("search_webset_items_exa", true), ("create_import_exa", true),
   ("get_import_exa", true), ("create_webset_monitor_exa", true),
   ("update_webset_monitor_exa", true), ("create_webhook_exa", true),
   ("list_webhook_attempts_exa", true), ("list_events_exa", true),
   ("get_event_exa", true)]

/-! Concrete sample inputs used by witnesses and counterexamples. -/

/-- Sample arguments: a bare query, no schema options. -/
def sampleArgs : ResearchArgs := { query := "X" }

/-- Sample submission response body carrying task id `t1`. -/
def sampleBody : Option SubmitResponseBody := some { taskId := some "t1" }

/-- A provider response that is still processing. -/
def procResp : ExaResearchResponse := { status := "processing" }

/-- A provider response with terminal `failed` status and a provider
error message. -/
def failResp : ExaResearchResponse :=
  { status := "failed", error := some "source unavailable" }

/-- A provider response reporting `completed` with no result payload. -/
def completedNoResult : ExaResearchResponse := { status := "completed" }

/-- A provider response reporting `completed` with a narrative report. -/
def reportResp : ExaResearchResponse :=
  { status := "completed", result := some { report := some "r" } }

/-- A provider response reporting `completed` with structured data. -/
def dataResp : ExaResearchResponse :=
  { status := "completed", result := some { data := some (.obj .nil) } }

end ExaResearch

namespace ExaResearch

/-- The poll loop's trace always follows the sleep-then-read cadence with
the constant interval. -/
theorem cadence_pollLoopAux (provider : Nat → ExaResearchResponse)
    (args : ResearchArgs) (taskId : String) :
    ∀ fuel i elapsed,
      cadence (pollLoopAux provider args taskId fuel i elapsed).1 = true := by
  intro fuel
  induction fuel with
  | zero => intro i elapsed; rfl
  | succ f ih =>
    intro i elapsed
    rw [pollLoopAux]
    by_cases h : elapsed < maxPollingTime
    · rw [if_pos h]
      cases hit : pollIter args taskId (provider i) with
      | ok r => simp [cadence]
      | thrown m => simp [cadence]
      | continuePolling => simp [cadence, ih]
    · rw [if_neg h]; rfl

/-- If every status read up to the deadline keeps polling, the loop falls
through past the deadline. -/
theorem pollLoopAux_timeout (provider : Nat → ExaResearchResponse)
    (args : ResearchArgs) (taskId : String)
    (hall : ∀ j, j < maxPollingTime / pollingInterval →
      pollIter args taskId (provider j) = .continuePolling) :
    ∀ fuel i,
      (pollLoopAux provider args taskId fuel i (pollingInterval * i)).2 = .timeout := by
  intro fuel
  induction fuel with
  | zero => intro i; rfl
  | succ f ih =>
    intro i
    rw [pollLoopAux]
    by_cases h : pollingInterval * i < maxPollingTime
    · rw [if_pos h]
      have hi : i < maxPollingTime / pollingInterval := by
        simp only [pollingInterval, maxPollingTime] at h ⊢; omega
      rw [hall i hi]
      have harith : pollingInterval * i + pollingInterval = pollingInterval * (i + 1) := by ring
      simp only [harith]
      exact ih (i + 1)
    · rw [if_neg h]

/-- The loop stops at the first status read whose iteration is terminal:
the loop's result is that iteration's classification and exactly
`k - i + 1` reads were issued. -/
theorem pollLoopAux_first_terminal (provider : Nat → ExaResearchResponse)
    (args : ResearchArgs) (taskId : String) (k : Nat)
    (hk : k < maxPollingTime / pollingInterval)
    (hterm : pollIter args taskId (provider k) ≠ .continuePolling) :
    ∀ fuel i, maxPollingTime / pollingInterval < fuel + i → i ≤ k →
      (∀ j, i ≤ j → j < k → pollIter args taskId (provider j) = .continuePolling) →
      (pollLoopAux provider args taskId fuel i (pollingInterval * i)).2
          = iterToLoop (pollIter args taskId (provider k))
        ∧ countReads (pollLoopAux provider args taskId fuel i (pollingInterval * i)).1
          = k - i + 1 := by
  intro fuel
  induction fuel with
  | zero => intro i hfuel hik _; omega
  | succ f ih =>
    intro i hfuel hik hpre
    have h : pollingInterval * i < maxPollingTime := by
      simp only [pollingInterval, maxPollingTime] at hk ⊢; omega
    rw [pollLoopAux, if_pos h]
    rcases Nat.eq_or_lt_of_le hik with heq | hlt
    · subst heq
      cases hit : pollIter args taskId (provider i) with
      | ok r => simp [iterToLoop, countReads]
      | thrown m => simp [iterToLoop, countReads]
      | continuePolling => exact absurd hit hterm
    · rw [hpre i le_rfl hlt]
      have harith : pollingInterval * i + pollingInterval = pollingInterval * (i + 1) := by ring
      simp only [harith]
      have := ih (i + 1) (by omega) hlt (fun j hj hjk => hpre j (by omega) hjk)
      refine ⟨this.1, ?_⟩
      simp only [countReads, this.2]
      omega

end ExaResearch

namespace ExaResearch

/-- `runPollLoop` stops at the first terminal read, with `k + 1` reads
issued in total. -/
theorem runPollLoop_first_terminal (provider : Nat → ExaResearchResponse)
    (args : ResearchArgs) (taskId : String) (k : Nat)
    (hk : k < maxPollingTime / pollingInterval)
    (hpre : ∀ j, j < k → pollIter args taskId (provider j) = .continuePolling)
    (hterm : pollIter args taskId (provider k) ≠ .continuePolling) :
    (runPollLoop provider args taskId).2 = iterToLoop (pollIter args taskId (provider k))
      ∧ countReads (runPollLoop provider args taskId).1 = k + 1 := by
  have := pollLoopAux_first_terminal provider args taskId k hk hterm
    (maxPollingTime / pollingInterval + 1) 0 (by omega) (Nat.zero_le k)
    (fun j _ hj => hpre j hj)
  rw [Nat.mul_zero] at this
  rw [runPollLoop]
  exact ⟨this.1, by rw [this.2]; omega⟩

/-- `runPollLoop` falls through past the deadline exactly when every read
the deadline allows keeps polling. -/
theorem runPollLoop_timeout_iff (provider : Nat → ExaResearchResponse)
    (args : ResearchArgs) (taskId : String) :
    (runPollLoop provider args taskId).2 = .timeout
      ↔ ∀ j, j < maxPollingTime / pollingInterval →
          pollIter args taskId (provider j) = .continuePolling := by
  constructor
  · intro htime
    by_contra hnot
    push_neg at hnot
    obtain ⟨j0, hj0, hne⟩ := hnot
    have hex : ∃ j, j < maxPollingTime / pollingInterval ∧
        pollIter args taskId (provider j) ≠ .continuePolling := ⟨j0, hj0, hne⟩
    have hspec := Nat.find_spec hex
    have hmin := fun m (hm : m < Nat.find hex) => Nat.find_min hex hm
    have hpre : ∀ j, j < Nat.find hex → pollIter args taskId (provider j) = .continuePolling := by
      intro j hj
      by_contra hc
      exact hmin j hj ⟨by omega, hc⟩
    have := runPollLoop_first_terminal provider args taskId (Nat.find hex) hspec.1 hpre hspec.2
    rw [htime] at this
    cases hit : pollIter args taskId (provider (Nat.find hex)) with
    | ok r => rw [hit] at this; exact absurd this.1.symm (by simp [iterToLoop])
    | thrown m => rw [hit] at this; exact absurd this.1.symm (by simp [iterToLoop])
    | continuePolling => exact hspec.2 hit
  · intro hall
    have := pollLoopAux_timeout provider args taskId hall
      (maxPollingTime / pollingInterval + 1) 0
    rw [Nat.mul_zero] at this
    rw [runPollLoop]
    exact this

end ExaResearch

namespace ExaResearch

/-- A non-terminal status keeps the loop polling. -/
theorem pollIter_continue_of_status (args : ResearchArgs) (taskId : String)
    (resp : ExaResearchResponse) (h1 : resp.status ≠ "completed")
    (h2 : resp.status ≠ "failed") :
    pollIter args taskId resp = .continuePolling := by
  simp [pollIter, h1, h2]

/-- A `failed` status throws the provider error, defaulted when absent or
empty. -/
theorem pollIter_failed (args : ResearchArgs) (taskId : String)
    (resp : ExaResearchResponse) (h : resp.status = "failed") :
    pollIter args taskId resp = .thrown (jsOrDefault resp.error "Research task failed") := by
  simp [pollIter, h]

/-- A `completed` status without a usable payload throws the matching
malformed-result message. -/
theorem pollIter_malformed (args : ResearchArgs) (taskId : String)
    (resp : ExaResearchResponse) (h : resp.status = "completed")
    (hm : missingPayload resp = true) :
    pollIter args taskId resp = .thrown (malformedMsg resp) := by
  unfold pollIter malformedMsg
  rw [if_pos h]
  unfold missingPayload at hm
  cases hres : resp.result with
  | none => rfl
  | some res =>
    rw [hres] at hm
    simp only [Bool.and_eq_true, Bool.not_eq_true'] at hm
    simp [hm.1, hm.2]

/-- A thrown poll-loop error lands in the handler's catch block, which
renders it with the error flag set. -/
theorem deepResearchRun_of_thrown (args : ResearchArgs)
    (body : Option SubmitResponseBody) (taskId : String)
    (provider : Nat → ExaResearchResponse) (msg : String)
    (hsub : submitCheck body = .ok taskId)
    (hloop : (runPollLoop provider args taskId).2 = .thrown msg) :
    deepResearchRun args body provider
      = { content := .plain ("Research error: " ++ msg), isError := true } := by
  simp [deepResearchRun, hsub, hloop]

/-- A fall-through poll loop yields the still-processing text without the
error flag. -/
theorem deepResearchRun_of_timeout (args : ResearchArgs)
    (body : Option SubmitResponseBody) (taskId : String)
    (provider : Nat → ExaResearchResponse)
    (hsub : submitCheck body = .ok taskId)
    (hloop : (runPollLoop provider args taskId).2 = .timeout) :
    deepResearchRun args body provider
      = { content := .plain (timeoutText taskId), isError := false } := by
  simp [deepResearchRun, hsub, hloop]

end ExaResearch

namespace ExaResearch

/-- C3: as soon as one status read returns `failed` (all earlier reads
non-terminal), the poll loop returns the Failed outcome carrying the
provider error immediately, with no further status reads: exactly `k + 1`
reads happen when the failure is observed at read `k`. -/
theorem c3_failed_stops_immediately (args : ResearchArgs) (taskId : String)
    (provider : Nat → ExaResearchResponse) (k : Nat)
    (hk : k < maxPollingTime / pollingInterval)
    (hpre : ∀ j, j < k → (provider j).status ≠ "completed" ∧ (provider j).status ≠ "failed")
    (hfail : (provider k).status = "failed") :
    (runPollLoop provider args taskId).2
        = .thrown (jsOrDefault (provider k).error "Research task failed")
      ∧ countReads (runPollLoop provider args taskId).1 = k + 1 := by
  have hiter := pollIter_failed args taskId (provider k) hfail
  have hterm : pollIter args taskId (provider k) ≠ .continuePolling := by
    rw [hiter]; intro h; exact IterResult.noConfusion h
  have := runPollLoop_first_terminal provider args taskId k hk
    (fun j hj => pollIter_continue_of_status args taskId _ (hpre j hj).1 (hpre j hj).2) hterm
  rw [hiter] at this
  exact this

/-- C3 witness: the provider fails on the very first check with
`source unavailable`; the outcome is that failure after exactly one
poll. -/
theorem c3_failed_stops_immediately_witness :
    (runPollLoop (fun _ => failResp) sampleArgs "t1").2 = .thrown "source unavailable"
      ∧ countReads (runPollLoop (fun _ => failResp) sampleArgs "t1").1 = 1 := by
  have := c3_failed_stops_immediately sampleArgs "t1" (fun _ => failResp) 0 (by decide)
    (fun j hj => absurd hj (Nat.not_lt_zero j)) rfl
  exact this

/-- C4: when no status read is terminal before the deadline, the call
returns the still-processing text with the error flag clear, and that
text carries the original task id. -/
theorem c4_timeout_outcome (args : ResearchArgs) (body : Option SubmitResponseBody)
    (taskId : String) (provider : Nat → ExaResearchResponse)
    (hsub : submitCheck body = .ok taskId)
    (hproc : ∀ j, j < maxPollingTime / pollingInterval →
      (provider j).status ≠ "completed" ∧ (provider j).status ≠ "failed") :
    deepResearchRun args body provider
        = { content := .plain (timeoutText taskId), isError := false }
      ∧ ∃ pre post, timeoutText taskId = pre ++ taskId ++ post := by
  have hloop : (runPollLoop provider args taskId).2 = .timeout :=
    (runPollLoop_timeout_iff provider args taskId).mpr
      (fun j hj => pollIter_continue_of_status args taskId _ (hproc j hj).1 (hproc j hj).2)
  refine ⟨deepResearchRun_of_timeout args body taskId provider hsub hloop,
    "Research task is still processing. Task ID: ",
    "\n\nThe research is taking longer than expected. You can check the status later using the task ID.",
    ?_⟩
  rw [timeoutText, String.append_assoc]

/-- C4 witness: a provider that always reports `processing` leads to the
non-error still-processing result for task `t1`. -/
theorem c4_timeout_outcome_witness :
    deepResearchRun sampleArgs sampleBody (fun _ => procResp)
      = { content := .plain (timeoutText "t1"), isError := false } := by
  have h : procResp.status ≠ "completed" ∧ procResp.status ≠ "failed" := by decide
  exact (c4_timeout_outcome sampleArgs sampleBody "t1" (fun _ => procResp) rfl
    (fun j _ => h)).1

/-- C2 amended: a `failed` status resolves to the textual failure message
`Research error: <provider error, or the generic message>`, but with the
host protocol's error flag set — the handler routes task failure through
its exception path, whose catch block marks the result as an error. -/
theorem c2_amended_failed_sets_error_flag (args : ResearchArgs)
    (body : Option SubmitResponseBody) (taskId : String)
    (provider : Nat → ExaResearchResponse) (k : Nat)
    (hsub : submitCheck body = .ok taskId)
    (hk : k < maxPollingTime / pollingInterval)
    (hpre : ∀ j, j < k → (provider j).status ≠ "completed" ∧ (provider j).status ≠ "failed")
    (hfail : (provider k).status = "failed") :
    deepResearchRun args body provider
      = { content := .plain ("Research error: "
            ++ jsOrDefault (provider k).error "Research task failed"),
          isError := true } := by
  have hiter := pollIter_failed args taskId (provider k) hfail
  have hterm : pollIter args taskId (provider k) ≠ .continuePolling := by
    rw [hiter]; intro h; exact IterResult.noConfusion h
  have hloop := (runPollLoop_first_terminal provider args taskId k hk
    (fun j hj => pollIter_continue_of_status args taskId _ (hpre j hj).1 (hpre j hj).2) hterm).1
  rw [hiter] at hloop
  exact deepResearchRun_of_thrown args body taskId provider _ hsub hloop

/-- C2 amended witness: failure on the first check renders the message
with the error flag set. -/
theorem c2_amended_failed_sets_error_flag_witness :
    deepResearchRun sampleArgs sampleBody (fun _ => failResp)
      = { content := .plain "Research error: source unavailable", isError := true } := by
  exact c2_amended_failed_sets_error_flag sampleArgs sampleBody "t1" (fun _ => failResp) 0
    rfl (by decide) (fun j hj => absurd hj (Nat.not_lt_zero j)) rfl

/-- C2 counterexample: at a poll sequence whose first status is `failed`
with error `source unavailable`, the returned tool result has the error
flag set, contradicting the claim that the error channel is not
raised. -/
theorem c2_counterexample_error_flag_raised :
    deepResearchRun sampleArgs sampleBody (fun _ => failResp)
        = { content := .plain "Research error: source unavailable", isError := true }
      ∧ (deepResearchRun sampleArgs sampleBody (fun _ => failResp)).isError ≠ false := by
  exact ⟨by decide, by decide⟩

/-- C6: a `completed` status without a usable payload (no result, or a
result with neither report nor data) makes the call fail with the
malformed-result message as a fatal error result, after exactly `k + 1`
status reads — the loop does not continue past it. -/
theorem c6_malformed_result_fatal (args : ResearchArgs)
    (body : Option SubmitResponseBody) (taskId : String)
    (provider : Nat → ExaResearchResponse) (k : Nat)
    (hsub : submitCheck body = .ok taskId)
    (hk : k < maxPollingTime / pollingInterval)
    (hpre : ∀ j, j < k → (provider j).status ≠ "completed" ∧ (provider j).status ≠ "failed")
    (hcomp : (provider k).status = "completed")
    (hmiss : missingPayload (provider k) = true) :
    deepResearchRun args body provider
        = { content := .plain ("Research error: " ++ malformedMsg (provider k)),
            isError := true }
      ∧ countReads (runPollLoop provider args taskId).1 = k + 1 := by
  have hiter := pollIter_malformed args taskId (provider k) hcomp hmiss
  have hterm : pollIter args taskId (provider k) ≠ .continuePolling := by
    rw [hiter]; intro h; exact IterResult.noConfusion h
  have hft := runPollLoop_first_terminal provider args taskId k hk
    (fun j hj => pollIter_continue_of_status args taskId _ (hpre j hj).1 (hpre j hj).2) hterm
  rw [hiter] at hft
  exact ⟨deepResearchRun_of_thrown args body taskId provider _ hsub hft.1, hft.2⟩

/-- C6 witness: `completed` with no result payload on the first check is
fatal after one read. -/
theorem c6_malformed_result_fatal_witness :
    deepResearchRun sampleArgs sampleBody (fun _ => completedNoResult)
        = { content := .plain "Research error: Research completed but no results returned",
            isError := true }
      ∧ countReads (runPollLoop (fun _ => completedNoResult) sampleArgs "t1").1 = 1 := by
  exact c6_malformed_result_fatal sampleArgs sampleBody "t1" (fun _ => completedNoResult) 0
    rfl (by decide) (fun j hj => absurd hj (Nat.not_lt_zero j)) rfl rfl

end ExaResearch

namespace ExaResearch

/-- C5: the submit step never proceeds with an empty task identifier —
every successful check yields a non-empty id, every submission body
either yields such an id or a submission error, and a missing body, a
missing id, and an empty-string id are all rejected. -/
theorem c5_submit_nonempty_or_error :
    (∀ body t, submitCheck body = Except.ok t → t ≠ "")
      ∧ (∀ body, (∃ t, submitCheck body = Except.ok t ∧ t ≠ "")
          ∨ ∃ msg, submitCheck body = Except.error msg)
      ∧ submitCheck none
          = Except.error "Failed to start research task - no task ID received"
      ∧ submitCheck (some { taskId := none })
          = Except.error "Failed to start research task - no task ID received"
      ∧ submitCheck (some { taskId := some "" })
          = Except.error "Failed to start research task - no task ID received" := by
  refine ⟨?_, ?_, rfl, rfl, rfl⟩
  · intro body t h
    match body with
    | none => exact absurd h (by simp [submitCheck])
    | some b =>
      match hb : b.taskId with
      | none => simp [submitCheck, hb] at h
      | some s =>
        by_cases hs : s = ""
        · simp [submitCheck, hb, hs] at h
        · simp [submitCheck, hb, hs] at h
          rw [← h]; exact hs
  · intro body
    match body with
    | none => exact Or.inr ⟨_, rfl⟩
    | some b =>
      match hb : b.taskId with
      | none =>
        exact Or.inr ⟨"Failed to start research task - no task ID received",
          by simp [submitCheck, hb]⟩
      | some s =>
        by_cases hs : s = ""
        · exact Or.inr ⟨"Failed to start research task - no task ID received",
            by simp [submitCheck, hb, hs]⟩
        · exact Or.inl ⟨s, by simp [submitCheck, hb, hs], hs⟩

/-- C5 witness: a body carrying task id `t1` passes the check with a
non-empty identifier. -/
theorem c5_submit_nonempty_or_error_witness :
    submitCheck (some { taskId := some "t1" }) = Except.ok "t1" ∧ ("t1" : String) ≠ "" := by
  exact ⟨rfl, c5_submit_nonempty_or_error.1 (some { taskId := some "t1" }) "t1" rfl⟩

/-- C9: the poll loop's trace is a sequence of sleep-then-read pairs with
the constant 3000 ms interval (so a sleep precedes every status read,
including the first, with no backoff), the deadline is 120000 ms, and the
loop falls through to the timeout exactly when every read the deadline
allows is non-terminal. -/
theorem c9_poll_cadence (provider : Nat → ExaResearchResponse)
    (args : ResearchArgs) (taskId : String) :
    cadence (runPollLoop provider args taskId).1 = true
      ∧ pollingInterval = 3000 ∧ maxPollingTime = 120000
      ∧ ((runPollLoop provider args taskId).2 = .timeout
          ↔ ∀ j, j < maxPollingTime / pollingInterval →
              pollIter args taskId (provider j) = .continuePolling) := by
  refine ⟨?_, rfl, rfl, runPollLoop_timeout_iff provider args taskId⟩
  rw [runPollLoop]
  exact cadence_pollLoopAux provider args taskId _ 0 0

/-- C9 witness: on an always-processing provider the cadence holds and
the loop times out. -/
theorem c9_poll_cadence_witness :
    cadence (runPollLoop (fun _ => procResp) sampleArgs "t1").1 = true
      ∧ (runPollLoop (fun _ => procResp) sampleArgs "t1").2 = .timeout := by
  have h : pollIter sampleArgs "t1" procResp = .continuePolling := by decide
  exact ⟨(c9_poll_cadence (fun _ => procResp) sampleArgs "t1").1,
    (c9_poll_cadence (fun _ => procResp) sampleArgs "t1").2.2.2.mpr (fun j _ => h)⟩

/-- C1 counterexample: on a `completed` status with no result payload the
two decoding paths disagree — the poll loop throws a fatal
malformed-result error, while the status-check tool renders a plain,
non-error status document. -/
theorem c1_counterexample_decoding_diverges :
    pollerOutcome completedNoResult ≠ checkerOutcome completedNoResult
      ∧ pollerOutcome completedNoResult
          = .failed (some "Research completed but no results returned")
      ∧ checkerOutcome completedNoResult = .pending
      ∧ pollIter sampleArgs "t1" completedNoResult
          = .thrown "Research completed but no results returned"
      ∧ checkStatusRun "t1" completedNoResult
          = { content := .json [("taskId", .str "t1"), ("status", .str "completed"),
                ("error", .undefined)],
              isError := false } := by
  exact ⟨by decide, by decide, by decide, by decide, by decide⟩

/-- C1 amended: the two status-decoding paths agree on `completed`
responses with a truthy report or data payload, on `failed` responses
whose provider error is present and non-empty, and on non-terminal
statuses; they diverge on `completed` without a usable payload (poller:
fatal error; checker: generic status rendering) and on `failed` with an
absent or empty error (poller supplies the generic default message;
checker carries the raw error field). -/
theorem c1_amended_decoding_agreement (resp : ExaResearchResponse) :
    (resp.status = "completed" → ∀ res, resp.result = some res →
        (truthyStr res.report = true ∨ truthyVal res.data = true) →
        pollerOutcome resp = checkerOutcome resp)
      ∧ (resp.status = "failed" → ∀ s, resp.error = some s → s ≠ "" →
          pollerOutcome resp = checkerOutcome resp)
      ∧ (resp.status ≠ "completed" → resp.status ≠ "failed" →
          pollerOutcome resp = checkerOutcome resp) := by
  refine ⟨?_, ?_, ?_⟩
  · intro hc res hres hor
    unfold pollerOutcome checkerOutcome
    rw [if_pos hc, if_pos hc, hres]
    rcases hor with h | h
    · simp [h]
    · by_cases hr : truthyStr res.report <;> simp [hr, h]
  · intro hf s hs hne
    have hnc : ¬ resp.status = "completed" := by rw [hf]; decide
    unfold pollerOutcome checkerOutcome
    rw [if_neg hnc, if_neg hnc, if_pos hf, if_pos hf, hs]
    simp [jsOrDefault, hne]
  · intro h1 h2
    unfold pollerOutcome checkerOutcome
    rw [if_neg h1, if_neg h1, if_neg h2, if_neg h2]

/-- C1 amended witness: both paths classify a `processing` response as
still pending. -/
theorem c1_amended_decoding_agreement_witness :
    pollerOutcome procResp = checkerOutcome procResp := by
  exact (c1_amended_decoding_agreement procResp).2.2 (by decide) (by decide)

end ExaResearch

namespace ExaResearch

/-- C7 counterexample: at query `alpha`, task id `42`, report `r`, the
rendered report decomposes into title, report content, and footer — and
the footer contains the task identifier but not the query, contradicting
the claim that the query is appended as part of the footer (it appears
only in the title). -/
theorem c7_counterexample_footer_lacks_query :
    pollIter { query := "alpha" } "42" reportResp
        = .ok { content := .plain (reportTitle "alpha" ++ "r" ++ reportFooter "42"),
                isError := false }
      ∧ strContains (reportFooter "42") "alpha" = false
      ∧ strContains (reportFooter "42") "42" = true := by
  exact ⟨by decide, by decide, by decide⟩

/-- C7 amended: for a completed result carrying a (non-empty) report, the
poll loop emits the titled text block `title ++ report ++ footer`, whose
text begins with `# Research Report: ` followed by the query and whose
footer carries the task identifier (the query appears in the title, not
the footer); for a result carrying data instead, it emits the
`formattedResults` JSON document containing the structured payload
verbatim and no report field. -/
theorem c7_amended_formatter (args : ResearchArgs) (taskId : String)
    (resp : ExaResearchResponse) (res : ResearchResult)
    (hc : resp.status = "completed") (hres : resp.result = some res) :
    (∀ s, res.report = some s → s ≠ "" →
        pollIter args taskId resp
            = .ok { content := .plain (reportTitle args.query ++ s ++ reportFooter taskId),
                    isError := false }
          ∧ (∃ rest, reportTitle args.query ++ s ++ reportFooter taskId
              = ("# Research Report: " ++ args.query) ++ rest)
          ∧ (∃ pre post, reportFooter taskId = pre ++ taskId ++ post))
      ∧ (truthyStr res.report = false → ∀ d, res.data = some d → jsTruthy d = true →
          pollIter args taskId resp
              = .ok { content := .json (formattedDoc args taskId resp d), isError := false }
            ∧ ("structuredData", d) ∈ stringifyDrop (formattedDoc args taskId resp d)
            ∧ ("taskId", JSVal.str taskId) ∈ stringifyDrop (formattedDoc args taskId resp d)
            ∧ (∀ v, ("reportGenerated", v) ∉ stringifyDrop (formattedDoc args taskId resp d))
            ∧ (∀ v, ("report", v) ∉ stringifyDrop (formattedDoc args taskId resp d))) := by
  constructor
  · intro s hrep hne
    have htr : truthyStr res.report = true := by simp [truthyStr, hrep, hne]
    refine ⟨?_, ?_, ?_⟩
    · unfold pollIter
      rw [if_pos hc, hres]
      simp only [htr, if_pos]
      rw [hrep]
      rfl
    · exact ⟨"\n\n" ++ s ++ reportFooter taskId,
        by simp [reportTitle, String.append_assoc]⟩
    · exact ⟨"\n\n---\n*Research ID: ", "*", by rw [reportFooter, String.append_assoc]⟩
  · intro hrep d hd htr
    have htv : truthyVal res.data = true := by simp [truthyVal, hd, htr]
    have hdne : (d == JSVal.undefined) = false := by
      cases d with
      | undefined => simp [jsTruthy] at htr
      | bool b => rfl
      | str s => rfl
      | obj o => rfl
    refine ⟨?_, ?_, ?_, ?_, ?_⟩
    · unfold pollIter
      rw [if_pos hc, hres]
      simp only [hrep, Bool.false_eq_true, if_false, htv, if_pos]
      rw [hd]
      rfl
    · refine List.mem_filter.mpr ⟨by simp [formattedDoc], by simp [hdne]⟩
    · refine List.mem_filter.mpr ⟨by simp [formattedDoc], by simp⟩
    · intro v hv
      have := (List.mem_filter.mp hv).1
      simp [formattedDoc] at this
    · intro v hv
      have := (List.mem_filter.mp hv).1
      simp [formattedDoc] at this

/-- C7 amended witness: report and data renderings at concrete inputs. -/
theorem c7_amended_formatter_witness :
    pollIter sampleArgs "t1" reportResp
        = .ok { content := .plain (reportTitle "X" ++ "r" ++ reportFooter "t1"),
                isError := false }
      ∧ pollIter sampleArgs "t1" dataResp
        = .ok { content := .json (formattedDoc sampleArgs "t1" dataResp (.obj .nil)),
                isError := false } := by
  refine ⟨((c7_amended_formatter sampleArgs "t1" reportResp { report := some "r" }
      rfl rfl).1 "r" rfl (by decide)).1, ?_⟩
  exact ((c7_amended_formatter sampleArgs "t1" dataResp { data := some (.obj .nil) }
      rfl rfl).2 rfl (.obj .nil) rfl rfl).1

/-- C8 counterexample: with neither `outputSchema` nor
`llmGenerateSchema` supplied, the `schemaUsed` flag is `undefined` and is
dropped from the emitted JSON document, contradicting the claim that the
flag is present and boolean-valued for every combination. -/
theorem c8_counterexample_flag_absent :
    schemaUsedVal sampleArgs = JSVal.undefined
      ∧ (stringifyDrop (formattedDoc sampleArgs "t1" dataResp (.obj .nil))).lookup "schemaUsed"
          = none
      ∧ pollIter sampleArgs "t1" dataResp
          = .ok { content := .json (formattedDoc sampleArgs "t1" dataResp (.obj .nil)),
                  isError := false } := by
  exact ⟨rfl, by decide, by decide⟩

/-- C8 amended: the emitted structured-data document carries the
`schemaUsed` flag as a boolean whenever `outputSchema` is supplied (then
it is `true`) or `llmGenerateSchema` is supplied (then it is that
boolean); when neither is supplied the flag is `undefined` and the key is
absent from the emitted document.  The task identifier and the structured
payload are carried in every case. -/
theorem c8_amended_schema_flag (args : ResearchArgs) (taskId : String)
    (resp : ExaResearchResponse) (d : JSVal) :
    (args.outputSchema.isSome = true →
        ("schemaUsed", JSVal.bool true) ∈ stringifyDrop (formattedDoc args taskId resp d))
      ∧ (∀ b, args.outputSchema = none → args.llmGenerateSchema = some b →
          ("schemaUsed", JSVal.bool b) ∈ stringifyDrop (formattedDoc args taskId resp d))
      ∧ (args.outputSchema = none → args.llmGenerateSchema = none →
          ∀ v, ("schemaUsed", v) ∉ stringifyDrop (formattedDoc args taskId resp d))
      ∧ ("taskId", JSVal.str taskId) ∈ stringifyDrop (formattedDoc args taskId resp d)
      ∧ ("structuredData", d) ∈ formattedDoc args taskId resp d := by
  refine ⟨?_, ?_, ?_, ?_, by simp [formattedDoc]⟩
  · intro h
    have hval : schemaUsedVal args = JSVal.bool true := by simp [schemaUsedVal, h]
    refine List.mem_filter.mpr ⟨?_, by simp⟩
    simp [formattedDoc, ← hval]
  · intro b h1 h2
    have hval : schemaUsedVal args = JSVal.bool b := by simp [schemaUsedVal, h1, h2]
    refine List.mem_filter.mpr ⟨?_, by simp⟩
    simp [formattedDoc, ← hval]
  · intro h1 h2 v hv
    have hval : schemaUsedVal args = JSVal.undefined := by simp [schemaUsedVal, h1, h2]
    have hmem := (List.mem_filter.mp hv).1
    have hpred := (List.mem_filter.mp hv).2
    simp [formattedDoc] at hmem
    simp [hmem, hval] at hpred
  · exact List.mem_filter.mpr ⟨by simp [formattedDoc], by simp⟩

/-- C8 amended witness: with a caller-supplied schema the flag is `true`
and present in the emitted document. -/
theorem c8_amended_schema_flag_witness :
    ("schemaUsed", JSVal.bool true)
      ∈ stringifyDrop (formattedDoc { query := "X", outputSchema := some (.obj .nil) }
          "t1" dataResp (.obj .nil)) := by
  exact (c8_amended_schema_flag { query := "X", outputSchema := some (.obj .nil) }
    "t1" dataResp (.obj .nil)).1 rfl

/-- C10: an explicitly empty `enabledTools` list behaves exactly like an
absent one for every registry and tool id, so under an empty list every
tool whose registry entry is enabled is still registered. -/
theorem c10_empty_enabled_tools_list :
    (∀ (registry : List (String × Bool)) (toolId : String),
        shouldRegisterTool (some []) registry toolId
          = shouldRegisterTool none registry toolId)
      ∧ availableTools.all
          (fun p => !p.2 || shouldRegisterTool (some []) availableTools p.1) = true := by
  exact ⟨fun registry toolId => rfl, by decide⟩

end ExaResearch
